import Mathlib

/-!
# Legal Management System backend — verification development

A shallow embedding of the record-management backend (`main.py`, `schemas.py`)
into Lean 4, together with theorems about its request-validation and
document-query contract.

The repository's document-store adapter (`database.py`: the `db` handle,
`create_document`, `get_documents`) is imported by `main.py` but is not part
of the source tree; those primitives are modelled from the specification
(§4.2 Document Store Adapter) and each such definition is marked
`Modelled from the spec:` in its doc comment.  Everything else is translated
directly from the Python source.
-/

namespace LegalBackend

/-- A scalar JSON-like value stored in a document field. -/
inductive Prim where
  | pNull : Prim
  | pStr (s : String) : Prim
  | pInt (n : Int) : Prim
  | pBool (b : Bool) : Prim
deriving DecidableEq, Repr

/-- A document field value: a scalar, a list of scalars (e.g. `tags`),
a list of open objects (e.g. `checklist`, `items`), or an open object
(e.g. `Setting.value`). -/
inductive Value where
  | prim (p : Prim) : Value
  | arr (xs : List Prim) : Value
  | arrObj (xs : List (List (String × Prim))) : Value
  | obj (kvs : List (String × Prim)) : Value
deriving DecidableEq, Repr

/-- A document: an ordered association list of field names to values,
mirroring a validated pydantic model dumped to a JSON object. -/
abbrev Doc := List (String × Value)

/-- A stored record: the store-assigned identifier together with the
document fields. -/
structure Rec where
  id : Nat
  fields : Doc
deriving DecidableEq, Repr

/-- Modelled from the spec: the document store state (`database.py` is absent
from the source tree).  Per §4.2, the store holds named collections of
records and assigns a fresh unique identifier at each insertion; `nextId`
is the next identifier to assign and `colls` maps collection names to
their record sequences (most recent binding first). -/
structure Store where
  nextId : Nat
  colls : List (String × List Rec)
deriving Repr

/-- The store with no collections and no records. -/
def Store.empty : Store := { nextId := 0, colls := [] }

/-- The record sequence of a named collection (empty when absent). -/
def getColl (s : Store) (c : String) : List Rec :=
  (List.lookup c s.colls).getD []

/-- Modelled from the spec: `create_document(collection, payload)` from the
absent `database.py`.  Per §4.2 `insert`, it assigns a unique identifier,
appends the record to the collection, and returns the identifier. -/
def create_document (s : Store) (c : String) (d : Doc) : Nat × Store :=
  (s.nextId,
   { nextId := s.nextId + 1
     colls := (c, getColl s c ++ [⟨s.nextId, d⟩]) :: s.colls })

/-- A store-native filter expression, as built by `_query` in `main.py`:
conjunctive equality clauses (`filter_dict` entries) plus an optional
free-text term (the `$or` of case-insensitive `$regex` clauses). -/
structure Filter where
  eqs : List (String × Value) := []
  orq : Option String := none

/-- The characters of a string lowercased, for case-insensitive matching. -/
def lowerChars (s : String) : List Char :=
  s.data.map Char.toLower

/-- `pat` occurs as a case-insensitive substring of `hay`: the lowercased
characters of `pat` form a contiguous infix of the lowercased characters
of `hay`. -/
def ciContains (hay pat : String) : Bool :=
  decide (lowerChars pat <:+: lowerChars hay)

/-- The four keys the free-text `$or` sub-filter of `_query` targets. -/
def searchFields : List String := ["title", "name", "description", "content"]

/-- The value of field `k` of record `r`, when present. -/
def lookupField (r : Rec) (k : String) : Option Value :=
  List.lookup k r.fields

/-- One `$regex` clause of the free-text `$or`: field `fld` of record `r`
holds a string containing `q` case-insensitively (a clause on an absent or
non-string field matches nothing, a harmless no-op inside the `$or`). -/
def fieldTextMatch (r : Rec) (q fld : String) : Bool :=
  match lookupField r fld with
  | some (Value.prim (Prim.pStr s)) => ciContains s q
  | _ => false

/-- The free-text `$or` sub-filter built by `_query`: the term `q` matches
some field among `title`, `name`, `description`, `content`. -/
def textMatch (q : String) (r : Rec) : Bool :=
  searchFields.any (fieldTextMatch r q)

/-- Modelled from the spec: the store's evaluation of a filter expression
against a record.  Equality clauses require the field to be present with an
equal value; per §4.3 the free-text term is matched as a case-insensitive
substring against whichever of `title`, `name`, `description`, `content`
are present (the given terms contain no regex metacharacters, so the
spec's substring reading of the `$regex` clause applies verbatim). -/
def matchesFilter (f : Filter) (r : Rec) : Bool :=
  f.eqs.all (fun kv => decide (lookupField r kv.1 = some kv.2)) &&
  (match f.orq with
   | none => true
   | some q => textMatch q r)

/-- Modelled from the spec: `get_documents(collection, filter_dict, limit)`
from the absent `database.py`.  Per §4.2 `find`, it returns up to `limit`
matching records in store order, and the empty sequence when none match. -/
def get_documents (s : Store) (c : String) (f : Filter) (limit : Nat) :
    List Rec :=
  ((getColl s c).filter (fun r => matchesFilter f r)).take limit

/-- Python truthiness of an optional string parameter: `if x:` holds exactly
when the parameter is present and non-empty. -/
def truthy : Option String → Bool
  | none => false
  | some s => !s.isEmpty

/-- Python truthiness of an optional integer parameter: `if x:` holds exactly
when the parameter is present and non-zero. -/
def truthyInt : Option Int → Bool
  | none => false
  | some n => n != 0

/-- The equality clause an endpoint adds for one optional query parameter:
`if x: extra[k] = x` contributes a clause only for a truthy value. -/
def eqClause (k : String) (v : Option String) : List (String × Value) :=
  match v with
  | none => []
  | some s => if s.isEmpty then [] else [(k, Value.prim (Prim.pStr s))]

/-- The equality clause for an optional integer parameter (`year`). -/
def eqClauseInt (k : String) (v : Option Int) : List (String × Value) :=
  match v with
  | none => []
  | some n => if n == 0 then [] else [(k, Value.prim (Prim.pInt n))]

/-- `_query` from `main.py`: start from the `extra` equality clauses and,
when a truthy free-text term `q` is supplied, add the `$or` sub-filter over
`title`, `name`, `description`, `content`. -/
def query (s : Store) (collection : String) (q : Option String)
    (extra : List (String × Value)) (limit : Nat) : List Rec :=
  get_documents s collection
    { eqs := extra, orq := if truthy q then q else none } limit

/-- `GET /clients` (`list_clients` in `main.py`). -/
def list_clients (s : Store) (q : Option String) (limit : Nat) : List Rec :=
  query s "client" q [] limit

/-- `GET /cases` (`list_cases` in `main.py`). -/
def list_cases (s : Store) (q client_id status : Option String)
    (limit : Nat) : List Rec :=
  query s "case" q (eqClause "client_id" client_id ++ eqClause "status" status)
    limit

/-- `GET /tasks` (`list_tasks` in `main.py`); no free-text term. -/
def list_tasks (s : Store) (case_id status assignee_id : Option String)
    (limit : Nat) : List Rec :=
  get_documents s "task"
    { eqs := eqClause "case_id" case_id ++ eqClause "status" status ++
        eqClause "assignee_id" assignee_id }
    limit

/-- `GET /invoices` (`list_invoices` in `main.py`). -/
def list_invoices (s : Store) (client_id case_id status : Option String)
    (limit : Nat) : List Rec :=
  get_documents s "invoice"
    { eqs := eqClause "client_id" client_id ++ eqClause "case_id" case_id ++
        eqClause "status" status }
    limit

/-- `GET /settings` (`list_settings` in `main.py`). -/
def list_settings (s : Store) (scope user_id : Option String)
    (limit : Nat) : List Rec :=
  get_documents s "setting"
    { eqs := eqClause "scope" scope ++ eqClause "user_id" user_id } limit

/-- `GET /legal-docs` (`search_legal_docs` in `main.py`). -/
def search_legal_docs (s : Store) (q practice_area jurisdiction : Option String)
    (year : Option Int) (limit : Nat) : List Rec :=
  query s "legaldocument" q
    (eqClause "practice_area" practice_area ++
      eqClause "jurisdiction" jurisdiction ++ eqClauseInt "year" year)
    limit

/-- `GET /assistant/messages` (`list_messages` in `main.py`). -/
def list_messages (s : Store) (conversation_id related_case_id : Option String)
    (limit : Nat) : List Rec :=
  get_documents s "assistantmessage"
    { eqs := eqClause "conversation_id" conversation_id ++
        eqClause "related_case_id" related_case_id }
    limit

/-- `GET /schema` (`get_schema` in `main.py`): the hardcoded collection
list. -/
def get_schema : List String :=
  ["client", "case", "task", "invoice", "setting", "legaldocument",
   "assistantmessage"]

/-- The entity class names declared in `schemas.py` that back the seven
collections. -/
def entityClassNames : List String :=
  ["Client", "Case", "Task", "Invoice", "Setting", "LegalDocument",
   "AssistantMessage"]

/-! ## Schema registry (`schemas.py`)

Each pydantic model becomes a pair of Lean structures: a raw-input structure
(`…In`, every field optional, mirroring an arbitrary JSON body) and a
validated structure.  A validator checks required fields, enumerated-value
constraints and numeric bounds, fills declared defaults, and collects the
names of all offending fields, as pydantic does.  Datetime fields are
modelled as integers (timestamps); `Invoice.total` is modelled as an
integer, which suffices for its non-negativity constraint. -/

/-- `Client.type` allowed values. -/
def clientTypes : List String := ["individual", "organization"]

/-- `Client.status` allowed values. -/
def clientStatuses : List String := ["active", "inactive", "prospect"]

/-- `Case.status` allowed values. -/
def caseStatuses : List String := ["open", "closed", "on_hold"]

/-- `Case.priority` / `Task.priority` allowed values. -/
def priorities : List String := ["low", "medium", "high", "urgent"]

/-- `Task.status` allowed values. -/
def taskStatuses : List String := ["todo", "in_progress", "done"]

/-- `Invoice.currency` allowed values. -/
def currencies : List String :=
  ["USD", "EUR", "GBP", "AUD", "CAD", "INR", "JPY", "CNY"]

/-- `Invoice.status` allowed values. -/
def invoiceStatuses : List String := ["draft", "sent", "paid", "overdue", "void"]

/-- `Setting.scope` allowed values. -/
def settingScopes : List String := ["org", "user"]

/-- `AssistantMessage.role` allowed values. -/
def messageRoles : List String := ["user", "assistant", "system"]

/-- The error contribution of one enum-constrained field: the field name
when a supplied value lies outside the allowed set (an absent field takes
its default, which is always allowed). -/
def enumErr (field : String) (allowed : List String) (v : Option String) :
    List String :=
  match v with
  | none => []
  | some s => if s ∈ allowed then [] else [field]

/-- The error contribution of one required field. -/
def reqErr (field : String) (v : Option String) : List String :=
  if v.isSome then [] else [field]

/-- An optional string field dumped to a document value. -/
def optStrV : Option String → Value
  | none => Value.prim Prim.pNull
  | some s => Value.prim (Prim.pStr s)

/-- An optional datetime/integer field dumped to a document value. -/
def optIntV : Option Int → Value
  | none => Value.prim Prim.pNull
  | some n => Value.prim (Prim.pInt n)

/-- A string-list field dumped to a document value. -/
def strListV (xs : List String) : Value := Value.arr (xs.map Prim.pStr)

/-- Raw input for `POST /clients`. -/
structure ClientIn where
  name : Option String := none
  email : Option String := none
  phone : Option String := none
  address : Option String := none
  type : Option String := none
  notes : Option String := none
  status : Option String := none
deriving DecidableEq, Repr

/-- A validated `Client` (schemas.py). -/
structure Client where
  name : String
  email : Option String
  phone : Option String
  address : Option String
  type : String
  notes : Option String
  status : String
deriving DecidableEq, Repr

/-- Validation of a `Client` payload: `name` required; `type` and `status`
enum-constrained with defaults `"individual"` and `"active"`. -/
def clientErrs (p : ClientIn) : List String :=
  reqErr "name" p.name ++ enumErr "type" clientTypes p.type ++
    enumErr "status" clientStatuses p.status

def validateClient (p : ClientIn) : Except (List String) Client :=
  let errs := clientErrs p
  match p.name with
  | some n =>
    if errs.isEmpty then
      .ok { name := n, email := p.email, phone := p.phone,
            address := p.address, type := p.type.getD "individual",
            notes := p.notes, status := p.status.getD "active" }
    else .error errs
  | none => .error errs

/-- A validated `Client` dumped to a document, in field order. -/
def clientToDoc (c : Client) : Doc :=
  [("name", Value.prim (Prim.pStr c.name)), ("email", optStrV c.email),
   ("phone", optStrV c.phone), ("address", optStrV c.address),
   ("type", Value.prim (Prim.pStr c.type)), ("notes", optStrV c.notes),
   ("status", Value.prim (Prim.pStr c.status))]

/-- Raw input for `POST /cases`. -/
structure CaseIn where
  title : Option String := none
  description : Option String := none
  client_id : Option String := none
  matter_number : Option String := none
  practice_area : Option String := none
  status : Option String := none
  priority : Option String := none
  opened_at : Option Int := none
  closed_at : Option Int := none
  assignees : Option (List String) := none
  tags : Option (List String) := none
deriving DecidableEq, Repr

/-- A validated `Case` (schemas.py). -/
structure Case where
  title : String
  description : Option String
  client_id : String
  matter_number : Option String
  practice_area : Option String
  status : String
  priority : String
  opened_at : Option Int
  closed_at : Option Int
  assignees : List String
  tags : List String
deriving DecidableEq, Repr

/-- Validation of a `Case` payload: `title` and `client_id` required;
`status` defaults to `"open"`, `priority` to `"medium"`; `assignees` and
`tags` default to the empty list. -/
def caseErrs (p : CaseIn) : List String :=
  reqErr "title" p.title ++ reqErr "client_id" p.client_id ++
    enumErr "status" caseStatuses p.status ++
    enumErr "priority" priorities p.priority

def validateCase (p : CaseIn) : Except (List String) Case :=
  let errs := caseErrs p
  match p.title, p.client_id with
  | some t, some cid =>
    if errs.isEmpty then
      .ok { title := t, description := p.description, client_id := cid,
            matter_number := p.matter_number, practice_area := p.practice_area,
            status := p.status.getD "open",
            priority := p.priority.getD "medium",
            opened_at := p.opened_at, closed_at := p.closed_at,
            assignees := p.assignees.getD [], tags := p.tags.getD [] }
    else .error errs
  | _, _ => .error errs

/-- A validated `Case` dumped to a document, in field order. -/
def caseToDoc (c : Case) : Doc :=
  [("title", Value.prim (Prim.pStr c.title)),
   ("description", optStrV c.description),
   ("client_id", Value.prim (Prim.pStr c.client_id)),
   ("matter_number", optStrV c.matter_number),
   ("practice_area", optStrV c.practice_area),
   ("status", Value.prim (Prim.pStr c.status)),
   ("priority", Value.prim (Prim.pStr c.priority)),
   ("opened_at", optIntV c.opened_at), ("closed_at", optIntV c.closed_at),
   ("assignees", strListV c.assignees), ("tags", strListV c.tags)]

/-- Raw input for `POST /tasks`. -/
structure TaskIn where
  case_id : Option String := none
  title : Option String := none
  description : Option String := none
  assignee_id : Option String := none
  status : Option String := none
  priority : Option String := none
  due_date : Option Int := none
  checklist : Option (List (List (String × Prim))) := none
deriving DecidableEq, Repr

/-- A validated `Task` (schemas.py). -/
structure Task where
  case_id : Option String
  title : String
  description : Option String
  assignee_id : Option String
  status : String
  priority : String
  due_date : Option Int
  checklist : List (List (String × Prim))
deriving DecidableEq, Repr

/-- Validation of a `Task` payload: `title` required; `status` defaults to
`"todo"`, `priority` to `"medium"`; `checklist` defaults to the empty
list. -/
def taskErrs (p : TaskIn) : List String :=
  reqErr "title" p.title ++ enumErr "status" taskStatuses p.status ++
    enumErr "priority" priorities p.priority

def validateTask (p : TaskIn) : Except (List String) Task :=
  let errs := taskErrs p
  match p.title with
  | some t =>
    if errs.isEmpty then
      .ok { case_id := p.case_id, title := t, description := p.description,
            assignee_id := p.assignee_id, status := p.status.getD "todo",
            priority := p.priority.getD "medium", due_date := p.due_date,
            checklist := p.checklist.getD [] }
    else .error errs
  | none => .error errs

/-- A validated `Task` dumped to a document, in field order. -/
def taskToDoc (t : Task) : Doc :=
  [("case_id", optStrV t.case_id), ("title", Value.prim (Prim.pStr t.title)),
   ("description", optStrV t.description),
   ("assignee_id", optStrV t.assignee_id),
   ("status", Value.prim (Prim.pStr t.status)),
   ("priority", Value.prim (Prim.pStr t.priority)),
   ("due_date", optIntV t.due_date), ("checklist", Value.arrObj t.checklist)]

/-- Raw input for `POST /invoices`. -/
structure InvoiceIn where
  client_id : Option String := none
  case_id : Option String := none
  number : Option String := none
  currency : Option String := none
  items : Option (List (List (String × Prim))) := none
  status : Option String := none
  issued_at : Option Int := none
  due_at : Option Int := none
  notes : Option String := none
  total : Option Int := none
deriving DecidableEq, Repr

/-- A validated `Invoice` (schemas.py). -/
structure Invoice where
  client_id : String
  case_id : Option String
  number : Option String
  currency : String
  items : List (List (String × Prim))
  status : String
  issued_at : Option Int
  due_at : Option Int
  notes : Option String
  total : Option Int
deriving DecidableEq, Repr

/-- Validation of an `Invoice` payload: `client_id` required; `currency`
defaults to `"USD"`, `status` to `"draft"`, `items` to the empty list; a
supplied `total` must be non-negative (`ge=0`). -/
def invoiceErrs (p : InvoiceIn) : List String :=
  reqErr "client_id" p.client_id ++
    enumErr "currency" currencies p.currency ++
    enumErr "status" invoiceStatuses p.status ++
    (match p.total with
     | some t => if t < 0 then ["total"] else []
     | none => [])

def validateInvoice (p : InvoiceIn) : Except (List String) Invoice :=
  let errs := invoiceErrs p
  match p.client_id with
  | some cid =>
    if errs.isEmpty then
      .ok { client_id := cid, case_id := p.case_id, number := p.number,
            currency := p.currency.getD "USD", items := p.items.getD [],
            status := p.status.getD "draft", issued_at := p.issued_at,
            due_at := p.due_at, notes := p.notes, total := p.total }
    else .error errs
  | none => .error errs

/-- A validated `Invoice` dumped to a document, in field order. -/
def invoiceToDoc (i : Invoice) : Doc :=
  [("client_id", Value.prim (Prim.pStr i.client_id)),
   ("case_id", optStrV i.case_id), ("number", optStrV i.number),
   ("currency", Value.prim (Prim.pStr i.currency)),
   ("items", Value.arrObj i.items),
   ("status", Value.prim (Prim.pStr i.status)),
   ("issued_at", optIntV i.issued_at), ("due_at", optIntV i.due_at),
   ("notes", optStrV i.notes), ("total", optIntV i.total)]

/-- Raw input for `POST /settings`. -/
structure SettingIn where
  key : Option String := none
  value : Option (List (String × Prim)) := none
  scope : Option String := none
  user_id : Option String := none
deriving DecidableEq, Repr

/-- A validated `Setting` (schemas.py). -/
structure Setting where
  key : String
  value : List (String × Prim)
  scope : String
  user_id : Option String
deriving DecidableEq, Repr

/-- Validation of a `Setting` payload: `key` required; `value` defaults to
the empty mapping; `scope` defaults to `"org"`. -/
def settingErrs (p : SettingIn) : List String :=
  reqErr "key" p.key ++ enumErr "scope" settingScopes p.scope

def validateSetting (p : SettingIn) : Except (List String) Setting :=
  let errs := settingErrs p
  match p.key with
  | some k =>
    if errs.isEmpty then
      .ok { key := k, value := p.value.getD [], scope := p.scope.getD "org",
            user_id := p.user_id }
    else .error errs
  | none => .error errs

/-- A validated `Setting` dumped to a document, in field order. -/
def settingToDoc (st : Setting) : Doc :=
  [("key", Value.prim (Prim.pStr st.key)), ("value", Value.obj st.value),
   ("scope", Value.prim (Prim.pStr st.scope)),
   ("user_id", optStrV st.user_id)]

/-- Raw input for `POST /legal-docs`. -/
structure LegalDocumentIn where
  title : Option String := none
  content : Option String := none
  jurisdiction : Option String := none
  practice_area : Option String := none
  doc_type : Option String := none
  year : Option Int := none
  source : Option String := none
  tags : Option (List String) := none
deriving DecidableEq, Repr

/-- A validated `LegalDocument` (schemas.py). -/
structure LegalDocument where
  title : String
  content : String
  jurisdiction : Option String
  practice_area : Option String
  doc_type : Option String
  year : Option Int
  source : Option String
  tags : List String
deriving DecidableEq, Repr

/-- Validation of a `LegalDocument` payload: `title` and `content`
required; `tags` defaults to the empty list; no enum-constrained field. -/
def legalDocumentErrs (p : LegalDocumentIn) : List String :=
  reqErr "title" p.title ++ reqErr "content" p.content

def validateLegalDocument (p : LegalDocumentIn) :
    Except (List String) LegalDocument :=
  let errs := legalDocumentErrs p
  match p.title, p.content with
  | some t, some c =>
    if errs.isEmpty then
      .ok { title := t, content := c, jurisdiction := p.jurisdiction,
            practice_area := p.practice_area, doc_type := p.doc_type,
            year := p.year, source := p.source, tags := p.tags.getD [] }
    else .error errs
  | _, _ => .error errs

/-- A validated `LegalDocument` dumped to a document, in field order. -/
def legalDocumentToDoc (d : LegalDocument) : Doc :=
  [("title", Value.prim (Prim.pStr d.title)),
   ("content", Value.prim (Prim.pStr d.content)),
   ("jurisdiction", optStrV d.jurisdiction),
   ("practice_area", optStrV d.practice_area),
   ("doc_type", optStrV d.doc_type), ("year", optIntV d.year),
   ("source", optStrV d.source), ("tags", strListV d.tags)]

/-- Raw input for `POST /assistant/messages`. -/
structure AssistantMessageIn where
  role : Option String := none
  content : Option String := none
  conversation_id : Option String := none
  related_case_id : Option String := none
deriving DecidableEq, Repr

/-- A validated `AssistantMessage` (schemas.py). -/
structure AssistantMessage where
  role : String
  content : String
  conversation_id : Option String
  related_case_id : Option String
deriving DecidableEq, Repr

/-- Validation of an `AssistantMessage` payload: `content` required;
`role` enum-constrained with default `"user"`. -/
def assistantMessageErrs (p : AssistantMessageIn) : List String :=
  enumErr "role" messageRoles p.role ++ reqErr "content" p.content

def validateAssistantMessage (p : AssistantMessageIn) :
    Except (List String) AssistantMessage :=
  let errs := assistantMessageErrs p
  match p.content with
  | some c =>
    if errs.isEmpty then
      .ok { role := p.role.getD "user", content := c,
            conversation_id := p.conversation_id,
            related_case_id := p.related_case_id }
    else .error errs
  | none => .error errs

/-- A validated `AssistantMessage` dumped to a document, in field order. -/
def assistantMessageToDoc (m : AssistantMessage) : Doc :=
  [("role", Value.prim (Prim.pStr m.role)),
   ("content", Value.prim (Prim.pStr m.content)),
   ("conversation_id", optStrV m.conversation_id),
   ("related_case_id", optStrV m.related_case_id)]

/-! ## Create endpoints (`main.py`)

Each `POST` handler validates its payload (the framework rejects invalid
bodies with a client error before the handler body runs) and inserts the
validated record into its collection, returning the generated identifier.
On a validation error the store is untouched. -/

/-- `POST /clients` (`create_client` in `main.py`). -/
def create_client (s : Store) (p : ClientIn) :
    Except (List String) Nat × Store :=
  match validateClient p with
  | .error es => (.error es, s)
  | .ok c =>
    let r := create_document s "client" (clientToDoc c)
    (.ok r.1, r.2)

/-- `POST /cases` (`create_case` in `main.py`). -/
def create_case (s : Store) (p : CaseIn) :
    Except (List String) Nat × Store :=
  match validateCase p with
  | .error es => (.error es, s)
  | .ok c =>
    let r := create_document s "case" (caseToDoc c)
    (.ok r.1, r.2)

/-- `POST /tasks` (`create_task` in `main.py`). -/
def create_task (s : Store) (p : TaskIn) :
    Except (List String) Nat × Store :=
  match validateTask p with
  | .error es => (.error es, s)
  | .ok t =>
    let r := create_document s "task" (taskToDoc t)
    (.ok r.1, r.2)

/-- `POST /invoices` (`create_invoice` in `main.py`). -/
def create_invoice (s : Store) (p : InvoiceIn) :
    Except (List String) Nat × Store :=
  match validateInvoice p with
  | .error es => (.error es, s)
  | .ok i =>
    let r := create_document s "invoice" (invoiceToDoc i)
    (.ok r.1, r.2)

/-- `POST /settings` (`create_setting` in `main.py`). -/
def create_setting (s : Store) (p : SettingIn) :
    Except (List String) Nat × Store :=
  match validateSetting p with
  | .error es => (.error es, s)
  | .ok st =>
    let r := create_document s "setting" (settingToDoc st)
    (.ok r.1, r.2)

/-- `POST /legal-docs` (`create_legal_doc` in `main.py`). -/
def create_legal_doc (s : Store) (p : LegalDocumentIn) :
    Except (List String) Nat × Store :=
  match validateLegalDocument p with
  | .error es => (.error es, s)
  | .ok d =>
    let r := create_document s "legaldocument" (legalDocumentToDoc d)
    (.ok r.1, r.2)

/-- `POST /assistant/messages` (`add_message` in `main.py`). -/
def add_message (s : Store) (p : AssistantMessageIn) :
    Except (List String) Nat × Store :=
  match validateAssistantMessage p with
  | .error es => (.error es, s)
  | .ok m =>
    let r := create_document s "assistantmessage" (assistantMessageToDoc m)
    (.ok r.1, r.2)

/-! ## Diagnostic endpoint (`GET /test`)

The database handle and the environment are modelled explicitly; the store
layer's one fallible diagnostic call, `db.list_collection_names()`, is an
`Except` value, and each `try/except` block of `test_database` becomes a
match on it.  The handler's catch-all means every branch produces a
response, never a fault. -/

/-- The process-wide database handle, as visible to `GET /test`: its one
diagnostic call `list_collection_names()` either yields the collection
names or raises (modelled as `Except.error` with the exception text). -/
structure DbConn where
  list_collection_names : Except String (List String)

/-- The process environment read by `GET /test`. -/
structure Env where
  database_url : Option String
  database_name : Option String

/-- The JSON response shape of `GET /test`. -/
structure TestResponse where
  backend : String
  database : String
  database_url : Option String
  database_name : Option String
  connection_status : String
  collections : List String
deriving Repr

/-- Python string slicing `s[:n]`: the first `n` characters. -/
def strTake (s : String) (n : Nat) : String :=
  String.mk (s.data.take n)

/-- `GET /test` (`test_database` in `main.py`).  The result is `Except` so
that an uncaught store-layer exception would surface as `.error`; the
handler's `try/except` structure makes every branch return `.ok`. -/
def test_database (db : Option DbConn) (env : Env) :
    Except String TestResponse :=
  let base : TestResponse :=
    { backend := "✅ Running", database := "❌ Not Available",
      database_url := none, database_name := none,
      connection_status := "Not Connected", collections := [] }
  match db with
  | some conn =>
    let r : TestResponse :=
      { base with
        database := "✅ Available"
        database_url :=
          some (if truthy env.database_url then "✅ Set" else "❌ Not Set")
        database_name := some (env.database_name.getD "")
        connection_status := "Connected" }
    match conn.list_collection_names with
    | .ok cols =>
      .ok { r with collections := cols.take 20,
                   database := "✅ Connected & Working" }
    | .error e =>
      .ok { r with database := "⚠️ Connected but Error: " ++ strTake e 120 }
  | none => .ok { base with database := "⚠️ Available but not initialized" }

/-! ## The operation step machine

All endpoints of `main.py` gathered into one step function over the store
state, to state frame properties (which operations mutate the store). -/

/-- One inbound request to the API router. -/
inductive Op where
  | opRoot : Op
  | opTest : Op
  | opSchema : Op
  | opCreateClient (p : ClientIn) : Op
  | opCreateCase (p : CaseIn) : Op
  | opCreateTask (p : TaskIn) : Op
  | opCreateInvoice (p : InvoiceIn) : Op
  | opCreateSetting (p : SettingIn) : Op
  | opCreateLegalDoc (p : LegalDocumentIn) : Op
  | opAddMessage (p : AssistantMessageIn) : Op
  | opListClients (q : Option String) (limit : Nat) : Op
  | opListCases (q client_id status : Option String) (limit : Nat) : Op
  | opListTasks (case_id status assignee_id : Option String)
      (limit : Nat) : Op
  | opListInvoices (client_id case_id status : Option String)
      (limit : Nat) : Op
  | opListSettings (scope user_id : Option String) (limit : Nat) : Op
  | opSearchLegalDocs (q practice_area jurisdiction : Option String)
      (year : Option Int) (limit : Nat) : Op
  | opListMessages (conversation_id related_case_id : Option String)
      (limit : Nat) : Op

/-- The response of one request. -/
inductive Out where
  | createdId (i : Nat) : Out
  | clientError (fields : List String) : Out
  | records (rs : List Rec) : Out
  | message (m : String) : Out
  | schemaOut (collections : List String) : Out

/-- `op` is served by a `GET` handler (root, test, schema, or a list
endpoint), as opposed to a `POST` create handler. -/
def isGetOp : Op → Bool
  | .opCreateClient _ | .opCreateCase _ | .opCreateTask _
  | .opCreateInvoice _ | .opCreateSetting _ | .opCreateLegalDoc _
  | .opAddMessage _ => false
  | _ => true

/-- The result of a create endpoint, packaged as a response. -/
def createOut (r : Except (List String) Nat × Store) : Store × Out :=
  match r with
  | (.ok i, s) => (s, .createdId i)
  | (.error es, s) => (s, .clientError es)

/-- One request handled against the store: the new store state and the
response.  `GET /test` reads only the database handle and environment, not
the document collections, so it leaves the store untouched. -/
def step (s : Store) : Op → Store × Out
  | .opRoot => (s, .message "Legal Management System Backend Running")
  | .opTest => (s, .message "test")
  | .opSchema => (s, .schemaOut get_schema)
  | .opCreateClient p => createOut (create_client s p)
  | .opCreateCase p => createOut (create_case s p)
  | .opCreateTask p => createOut (create_task s p)
  | .opCreateInvoice p => createOut (create_invoice s p)
  | .opCreateSetting p => createOut (create_setting s p)
  | .opCreateLegalDoc p => createOut (create_legal_doc s p)
  | .opAddMessage p => createOut (add_message s p)
  | .opListClients q limit => (s, .records (list_clients s q limit))
  | .opListCases q cid st limit => (s, .records (list_cases s q cid st limit))
  | .opListTasks cid st aid limit =>
    (s, .records (list_tasks s cid st aid limit))
  | .opListInvoices cl ca st limit =>
    (s, .records (list_invoices s cl ca st limit))
  | .opListSettings sc uid limit =>
    (s, .records (list_settings s sc uid limit))
  | .opSearchLegalDocs q pa j y limit =>
    (s, .records (search_legal_docs s q pa j y limit))
  | .opListMessages cv rc limit =>
    (s, .records (list_messages s cv rc limit))

/-- The store is well-formed: every stored record's identifier is below the
next identifier to be assigned (so freshly assigned identifiers are
unique). -/
def WF (s : Store) : Prop :=
  ∀ c r, r ∈ getColl s c → r.id < s.nextId

/-! ## Helper lemmas -/

/-- The unconstrained filter matches every record. -/
theorem matchesFilter_empty (r : Rec) : matchesFilter {} r = true := rfl

/-- After an insertion, the target collection is the old sequence with the
new record appended. -/
theorem getColl_create_self (s : Store) (c : String) (d : Doc) :
    getColl (create_document s c d).2 c = getColl s c ++ [⟨s.nextId, d⟩] := by
  simp [getColl, create_document, List.lookup]

/-- After an insertion, every other collection is unchanged. -/
theorem getColl_create_ne (s : Store) {c c' : String} (d : Doc)
    (h : c' ≠ c) :
    getColl (create_document s c d).2 c' = getColl s c' := by
  have hb : (c' == c) = false := beq_eq_false_iff_ne.mpr h
  simp [getColl, create_document, List.lookup, hb]

/-- An insertion only ever appends to a collection. -/
theorem getColl_create (s : Store) (c : String) (d : Doc) (coll : String) :
    ∃ t, getColl (create_document s c d).2 coll = getColl s coll ++ t := by
  by_cases h : coll = c
  · subst h
    exact ⟨[⟨s.nextId, d⟩], getColl_create_self s coll d⟩
  · exact ⟨[], by simp [getColl_create_ne s d h]⟩

/-- A record returned by `find` is stored in the collection and satisfies
the filter. -/
theorem of_mem_get_documents {s : Store} {c : String} {f : Filter}
    {limit : Nat} {r : Rec} (h : r ∈ get_documents s c f limit) :
    r ∈ getColl s c ∧ matchesFilter f r = true := by
  unfold get_documents at h
  have h1 := List.take_subset _ _ h
  exact ⟨List.mem_of_mem_filter h1, List.of_mem_filter h1⟩

/-- One free-text clause holds exactly when the field is present as a string
containing the term case-insensitively. -/
theorem fieldTextMatch_iff {r : Rec} {q fld : String} :
    fieldTextMatch r q fld = true ↔
      ∃ s, lookupField r fld = some (Value.prim (Prim.pStr s)) ∧
        lowerChars q <:+: lowerChars s := by
  unfold fieldTextMatch ciContains
  cases h : lookupField r fld with
  | none => simp
  | some v =>
    cases v with
    | prim p => cases p <;> simp
    | arr xs => simp
    | arrObj xs => simp
    | obj kvs => simp

/-- The free-text sub-filter holds exactly when some search field is present
as a string containing the term case-insensitively. -/
theorem textMatch_iff {q : String} {r : Rec} :
    textMatch q r = true ↔
      ∃ fld s, fld ∈ searchFields ∧
        lookupField r fld = some (Value.prim (Prim.pStr s)) ∧
        lowerChars q <:+: lowerChars s := by
  unfold textMatch
  rw [List.any_eq_true]
  constructor
  · rintro ⟨fld, hmem, hp⟩
    obtain ⟨s, hs, hinf⟩ := fieldTextMatch_iff.mp hp
    exact ⟨fld, s, hmem, hs, hinf⟩
  · rintro ⟨fld, s, hmem, hs, hinf⟩
    exact ⟨fld, hmem, fieldTextMatch_iff.mpr ⟨s, hs, hinf⟩⟩

/-- A filter holds exactly when every equality clause holds and, if a
free-text term is present, the free-text sub-filter holds. -/
theorem matchesFilter_eq_true_iff {f : Filter} {r : Rec} :
    matchesFilter f r = true ↔
      (∀ kv ∈ f.eqs, lookupField r kv.1 = some kv.2) ∧
      (∀ q, f.orq = some q → textMatch q r = true) := by
  unfold matchesFilter
  cases ho : f.orq <;>
    simp [ho, Bool.and_eq_true, List.all_eq_true]

/-- A `Client` payload with any offending field is rejected with the full
error list. -/
theorem validateClient_error {p : ClientIn} (h : clientErrs p ≠ []) :
    validateClient p = .error (clientErrs p) := by
  have hie : (clientErrs p).isEmpty = false := by simpa using h
  unfold validateClient
  cases hn : p.name <;> simp [hie]

/-- A `Case` payload with any offending field is rejected with the full
error list. -/
theorem validateCase_error {p : CaseIn} (h : caseErrs p ≠ []) :
    validateCase p = .error (caseErrs p) := by
  have hie : (caseErrs p).isEmpty = false := by simpa using h
  unfold validateCase
  cases ht : p.title <;> cases hc : p.client_id <;> simp [hie]

/-- A `Task` payload with any offending field is rejected with the full
error list. -/
theorem validateTask_error {p : TaskIn} (h : taskErrs p ≠ []) :
    validateTask p = .error (taskErrs p) := by
  have hie : (taskErrs p).isEmpty = false := by simpa using h
  unfold validateTask
  cases ht : p.title <;> simp [hie]

/-- An `Invoice` payload with any offending field is rejected with the full
error list. -/
theorem validateInvoice_error {p : InvoiceIn} (h : invoiceErrs p ≠ []) :
    validateInvoice p = .error (invoiceErrs p) := by
  have hie : (invoiceErrs p).isEmpty = false := by simpa using h
  unfold validateInvoice
  cases hc : p.client_id <;> simp [hie]

/-- A `Setting` payload with any offending field is rejected with the full
error list. -/
theorem validateSetting_error {p : SettingIn} (h : settingErrs p ≠ []) :
    validateSetting p = .error (settingErrs p) := by
  have hie : (settingErrs p).isEmpty = false := by simpa using h
  unfold validateSetting
  cases hk : p.key <;> simp [hie]

/-- An `AssistantMessage` payload with any offending field is rejected with
the full error list. -/
theorem validateAssistantMessage_error {p : AssistantMessageIn}
    (h : assistantMessageErrs p ≠ []) :
    validateAssistantMessage p = .error (assistantMessageErrs p) := by
  have hie : (assistantMessageErrs p).isEmpty = false := by simpa using h
  unfold validateAssistantMessage
  cases hc : p.content <;> simp [hie]

/-- A rejected `POST /clients` leaves the store unchanged. -/
theorem create_client_error {s : Store} {p : ClientIn} {es : List String}
    (h : validateClient p = .error es) :
    create_client s p = (.error es, s) := by
  simp [create_client, h]

/-- A rejected `POST /cases` leaves the store unchanged. -/
theorem create_case_error {s : Store} {p : CaseIn} {es : List String}
    (h : validateCase p = .error es) :
    create_case s p = (.error es, s) := by
  simp [create_case, h]

/-- A rejected `POST /tasks` leaves the store unchanged. -/
theorem create_task_error {s : Store} {p : TaskIn} {es : List String}
    (h : validateTask p = .error es) :
    create_task s p = (.error es, s) := by
  simp [create_task, h]

/-- A rejected `POST /invoices` leaves the store unchanged. -/
theorem create_invoice_error {s : Store} {p : InvoiceIn} {es : List String}
    (h : validateInvoice p = .error es) :
    create_invoice s p = (.error es, s) := by
  simp [create_invoice, h]

/-- A rejected `POST /settings` leaves the store unchanged. -/
theorem create_setting_error {s : Store} {p : SettingIn} {es : List String}
    (h : validateSetting p = .error es) :
    create_setting s p = (.error es, s) := by
  simp [create_setting, h]

/-- A rejected `POST /assistant/messages` leaves the store unchanged. -/
theorem add_message_error {s : Store} {p : AssistantMessageIn}
    {es : List String} (h : validateAssistantMessage p = .error es) :
    add_message s p = (.error es, s) := by
  simp [add_message, h]

/-! ## Concrete fixtures -/

/-- A stored record whose `content` is "Intellectual Property Dispute". -/
def recIP : Rec :=
  ⟨7, [("title", Value.prim (Prim.pStr "Memo")),
       ("content", Value.prim (Prim.pStr "Intellectual Property Dispute"))]⟩

/-- An open case mentioning "merger". -/
def openMergerCase : Rec :=
  ⟨0, [("title", Value.prim (Prim.pStr "Acme merger")),
       ("description", Value.prim (Prim.pStr "Open merger matter")),
       ("client_id", Value.prim (Prim.pStr "c1")),
       ("status", Value.prim (Prim.pStr "open"))]⟩

/-- A closed case mentioning "merger". -/
def closedMergerCase : Rec :=
  ⟨1, [("title", Value.prim (Prim.pStr "Beta merger")),
       ("description", Value.prim (Prim.pStr "Closed merger matter")),
       ("client_id", Value.prim (Prim.pStr "c1")),
       ("status", Value.prim (Prim.pStr "closed"))]⟩

/-- A store holding the two merger cases. -/
def mergerStore : Store :=
  ⟨2, [("case", [openMergerCase, closedMergerCase])]⟩

/-- The empty store is well-formed. -/
theorem WF_empty : WF Store.empty := by
  intro c r h
  simp [getColl, Store.empty, List.lookup] at h

/-! ## Claims -/

/-- C2: a record matches the free-text search built by `_query` iff the term
occurs as a case-insensitive substring of at least one of the record's
`title`, `name`, `description` or `content` fields; in particular the
record with content "Intellectual Property Dispute" matches
"intellectual", "PROPERTY" and "y disp" but not "dispu te" or
"disputer". -/
theorem free_text_search_is_ci_substring :
    (∀ (r : Rec) (q : String),
      matchesFilter { eqs := [], orq := some q } r = true ↔
        ∃ fld s, fld ∈ searchFields ∧
          lookupField r fld = some (Value.prim (Prim.pStr s)) ∧
          lowerChars q <:+: lowerChars s) ∧
    matchesFilter { eqs := [], orq := some "intellectual" } recIP = true ∧
    matchesFilter { eqs := [], orq := some "PROPERTY" } recIP = true ∧
    matchesFilter { eqs := [], orq := some "y disp" } recIP = true ∧
    matchesFilter { eqs := [], orq := some "dispu te" } recIP = false ∧
    matchesFilter { eqs := [], orq := some "disputer" } recIP = false := by
  refine ⟨fun r q => ?_, by decide, by decide, by decide, by decide, by decide⟩
  constructor
  · intro h
    exact textMatch_iff.mp ((matchesFilter_eq_true_iff.mp h).2 q rfl)
  · intro hx
    refine matchesFilter_eq_true_iff.mpr ⟨by simp, fun q' hq' => ?_⟩
    cases hq'
    exact textMatch_iff.mpr hx

/-- C3: a record returned by a list call that supplies both a free-text term
and exact-match constraints satisfies every equality constraint and the
free-text disjunction; concretely, listing cases with `q="merger"` and
`status="open"` returns only the open merger case and excludes the closed
one. -/
theorem filters_compose_conjunctively :
    (∀ (s : Store) (q cid st : String) (limit : Nat) (r : Rec),
      q ≠ "" → cid ≠ "" → st ≠ "" →
      r ∈ list_cases s (some q) (some cid) (some st) limit →
      lookupField r "client_id" = some (Value.prim (Prim.pStr cid)) ∧
      lookupField r "status" = some (Value.prim (Prim.pStr st)) ∧
      textMatch q r = true) ∧
    list_cases mergerStore (some "merger") none (some "open") 50 =
      [openMergerCase] := by
  constructor
  · intro s q cid st limit r hq hcid hst hr
    have hqe : q.isEmpty = false := by
      cases hqq : q.isEmpty
      · rfl
      · exact absurd ((String.isEmpty_iff _).mp hqq) hq
    have hce : cid.isEmpty = false := by
      cases hqq : cid.isEmpty
      · rfl
      · exact absurd ((String.isEmpty_iff _).mp hqq) hcid
    have hse : st.isEmpty = false := by
      cases hqq : st.isEmpty
      · rfl
      · exact absurd ((String.isEmpty_iff _).mp hqq) hst
    rw [list_cases, query, eqClause, eqClause] at hr
    simp only [hce, hse, truthy, hqe, Bool.not_false, if_true, if_false,
      Bool.false_eq_true, ite_true, ite_false] at hr
    have hm := (of_mem_get_documents hr).2
    obtain ⟨heqs, hor⟩ := matchesFilter_eq_true_iff.mp hm
    refine ⟨?_, ?_, hor q rfl⟩
    · exact heqs ("client_id", Value.prim (Prim.pStr cid)) (by simp)
    · exact heqs ("status", Value.prim (Prim.pStr st)) (by simp)
  · decide

/-- C6: for every list call — the generic `find` and each of the seven list
endpoints — the returned sequence never exceeds the limit. -/
theorem list_results_bounded_by_limit :
    (∀ (s : Store) (c : String) (f : Filter) (limit : Nat),
      (get_documents s c f limit).length ≤ limit) ∧
    (∀ s q limit, (list_clients s q limit).length ≤ limit) ∧
    (∀ s q cid st limit, (list_cases s q cid st limit).length ≤ limit) ∧
    (∀ s cid st aid limit, (list_tasks s cid st aid limit).length ≤ limit) ∧
    (∀ s cl ca st limit, (list_invoices s cl ca st limit).length ≤ limit) ∧
    (∀ s sc uid limit, (list_settings s sc uid limit).length ≤ limit) ∧
    (∀ s q pa j y limit,
      (search_legal_docs s q pa j y limit).length ≤ limit) ∧
    (∀ s cv rc limit, (list_messages s cv rc limit).length ≤ limit) := by
  have hg : ∀ (s : Store) (c : String) (f : Filter) (limit : Nat),
      (get_documents s c f limit).length ≤ limit :=
    fun s c f limit => List.length_take_le _ _
  exact ⟨hg, fun s q l => hg _ _ _ _, fun s q c t l => hg _ _ _ _,
    fun s c t a l => hg _ _ _ _, fun s c c2 t l => hg _ _ _ _,
    fun s sc u l => hg _ _ _ _, fun s q pa j y l => hg _ _ _ _,
    fun s cv rc l => hg _ _ _ _⟩

/-- C7: `GET /schema` returns exactly the fixed seven collection names, each
the lowercase transform of its entity class name. -/
theorem schema_is_fixed_lowercase_names :
    get_schema = entityClassNames.map (fun n => String.mk (lowerChars n)) ∧
    get_schema.length = 7 ∧
    get_schema = ["client", "case", "task", "invoice", "setting",
      "legaldocument", "assistantmessage"] := by
  refine ⟨by decide, rfl, rfl⟩

/-- C10: a falsy query parameter is treated as absent: an empty-string
filter value (`client_id=""`, `status=""`, `q=""`) and `year=0` on the
legal-docs endpoint produce no filter clause, so the call behaves as if the
parameter had been omitted. -/
theorem falsy_params_treated_as_absent :
    (∀ (s : Store) (q st : Option String) (limit : Nat),
      list_cases s q (some "") st limit = list_cases s q none st limit) ∧
    (∀ (s : Store) (q cid : Option String) (limit : Nat),
      list_cases s q cid (some "") limit = list_cases s q cid none limit) ∧
    (∀ (s : Store) (limit : Nat),
      list_clients s (some "") limit = list_clients s none limit) ∧
    (∀ (s : Store) (c : String) (extra : List (String × Value)) (limit : Nat),
      query s c (some "") extra limit = query s c none extra limit) ∧
    (∀ (s : Store) (q pa j : Option String) (limit : Nat),
      search_legal_docs s q pa j (some 0) limit =
        search_legal_docs s q pa j none limit) := by
  refine ⟨?_, ?_, ?_, ?_, ?_⟩ <;> intros <;> rfl

/-- The store returned by a create endpoint's response packaging is the
endpoint's resulting store. -/
theorem createOut_fst (r : Except (List String) Nat × Store) :
    (createOut r).1 = r.2 := by
  obtain ⟨e, st⟩ := r
  cases e <;> rfl

/-- `POST /clients` only ever appends to a collection. -/
theorem create_client_extends (s : Store) (p : ClientIn) (coll : String) :
    ∃ t, getColl (create_client s p).2 coll = getColl s coll ++ t := by
  cases hv : validateClient p with
  | error es => exact ⟨[], by simp [create_client, hv]⟩
  | ok c =>
    have h := getColl_create s "client" (clientToDoc c) coll
    simpa [create_client, hv] using h

/-- `POST /cases` only ever appends to a collection. -/
theorem create_case_extends (s : Store) (p : CaseIn) (coll : String) :
    ∃ t, getColl (create_case s p).2 coll = getColl s coll ++ t := by
  cases hv : validateCase p with
  | error es => exact ⟨[], by simp [create_case, hv]⟩
  | ok c =>
    have h := getColl_create s "case" (caseToDoc c) coll
    simpa [create_case, hv] using h

/-- `POST /tasks` only ever appends to a collection. -/
theorem create_task_extends (s : Store) (p : TaskIn) (coll : String) :
    ∃ t, getColl (create_task s p).2 coll = getColl s coll ++ t := by
  cases hv : validateTask p with
  | error es => exact ⟨[], by simp [create_task, hv]⟩
  | ok c =>
    have h := getColl_create s "task" (taskToDoc c) coll
    simpa [create_task, hv] using h

/-- `POST /invoices` only ever appends to a collection. -/
theorem create_invoice_extends (s : Store) (p : InvoiceIn) (coll : String) :
    ∃ t, getColl (create_invoice s p).2 coll = getColl s coll ++ t := by
  cases hv : validateInvoice p with
  | error es => exact ⟨[], by simp [create_invoice, hv]⟩
  | ok c =>
    have h := getColl_create s "invoice" (invoiceToDoc c) coll
    simpa [create_invoice, hv] using h

/-- `POST /settings` only ever appends to a collection. -/
theorem create_setting_extends (s : Store) (p : SettingIn) (coll : String) :
    ∃ t, getColl (create_setting s p).2 coll = getColl s coll ++ t := by
  cases hv : validateSetting p with
  | error es => exact ⟨[], by simp [create_setting, hv]⟩
  | ok c =>
    have h := getColl_create s "setting" (settingToDoc c) coll
    simpa [create_setting, hv] using h

/-- `POST /legal-docs` only ever appends to a collection. -/
theorem create_legal_doc_extends (s : Store) (p : LegalDocumentIn)
    (coll : String) :
    ∃ t, getColl (create_legal_doc s p).2 coll = getColl s coll ++ t := by
  cases hv : validateLegalDocument p with
  | error es => exact ⟨[], by simp [create_legal_doc, hv]⟩
  | ok c =>
    have h := getColl_create s "legaldocument" (legalDocumentToDoc c) coll
    simpa [create_legal_doc, hv] using h

/-- `POST /assistant/messages` only ever appends to a collection. -/
theorem add_message_extends (s : Store) (p : AssistantMessageIn)
    (coll : String) :
    ∃ t, getColl (add_message s p).2 coll = getColl s coll ++ t := by
  cases hv : validateAssistantMessage p with
  | error es => exact ⟨[], by simp [add_message, hv]⟩
  | ok c =>
    have h := getColl_create s "assistantmessage" (assistantMessageToDoc c) coll
    simpa [add_message, hv] using h

/-- C9: insert is the only mutating operation: every `GET` request (root,
test, schema, and each list endpoint) leaves the store state exactly as it
was, and no request ever removes or rewrites an existing record — every
operation's resulting collection is the old sequence with (possibly zero)
new records appended. -/
theorem insert_is_only_mutation :
    (∀ (s : Store) (op : Op), isGetOp op = true → (step s op).1 = s) ∧
    (∀ (s : Store) (op : Op) (coll : String),
      ∃ t, getColl (step s op).1 coll = getColl s coll ++ t) := by
  constructor
  · intro s op h
    cases op <;> simp_all [step, isGetOp]
  · intro s op coll
    cases op with
    | opRoot => exact ⟨[], (List.append_nil _).symm⟩
    | opTest => exact ⟨[], (List.append_nil _).symm⟩
    | opSchema => exact ⟨[], (List.append_nil _).symm⟩
    | opCreateClient p =>
      simpa [step, createOut_fst] using create_client_extends s p coll
    | opCreateCase p =>
      simpa [step, createOut_fst] using create_case_extends s p coll
    | opCreateTask p =>
      simpa [step, createOut_fst] using create_task_extends s p coll
    | opCreateInvoice p =>
      simpa [step, createOut_fst] using create_invoice_extends s p coll
    | opCreateSetting p =>
      simpa [step, createOut_fst] using create_setting_extends s p coll
    | opCreateLegalDoc p =>
      simpa [step, createOut_fst] using create_legal_doc_extends s p coll
    | opAddMessage p =>
      simpa [step, createOut_fst] using add_message_extends s p coll
    | opListClients q limit => exact ⟨[], (List.append_nil _).symm⟩
    | opListCases q cid st limit => exact ⟨[], (List.append_nil _).symm⟩
    | opListTasks cid st aid limit => exact ⟨[], (List.append_nil _).symm⟩
    | opListInvoices cl ca st limit => exact ⟨[], (List.append_nil _).symm⟩
    | opListSettings sc uid limit => exact ⟨[], (List.append_nil _).symm⟩
    | opSearchLegalDocs q pa j y limit =>
      exact ⟨[], (List.append_nil _).symm⟩
    | opListMessages cv rc limit => exact ⟨[], (List.append_nil _).symm⟩

/-- The `GET /test` response when the diagnostic call succeeds. -/
def testRespOk (env : Env) (cols : List String) : TestResponse where
  backend := "✅ Running"
  database := "✅ Connected & Working"
  database_url :=
    some (if truthy env.database_url then "✅ Set" else "❌ Not Set")
  database_name := some (env.database_name.getD "")
  connection_status := "Connected"
  collections := cols.take 20

/-- The `GET /test` response when the diagnostic call raises. -/
def testRespErr (env : Env) (e : String) : TestResponse where
  backend := "✅ Running"
  database := "⚠️ Connected but Error: " ++ strTake e 120
  database_url :=
    some (if truthy env.database_url then "✅ Set" else "❌ Not Set")
  database_name := some (env.database_name.getD "")
  connection_status := "Connected"
  collections := []

/-- C8: `GET /test` never propagates a store-layer exception: for every
database-handle state and environment it returns a response (never an
error), reporting at most 20 collection names, a connectivity status, and a
database status string of bounded length; a failing diagnostic call is
converted into a descriptive status whose exception text is truncated to
120 characters. -/
theorem test_endpoint_never_faults (db : Option DbConn) (env : Env) :
    ∃ resp, test_database db env = .ok resp ∧
      resp.collections.length ≤ 20 ∧
      resp.database.length ≤ 144 ∧
      (db = none → resp.connection_status = "Not Connected") ∧
      (∀ conn, db = some conn → resp.connection_status = "Connected") ∧
      (∀ conn e, db = some conn → conn.list_collection_names = .error e →
        resp.database = "⚠️ Connected but Error: " ++ strTake e 120) := by
  cases db with
  | none =>
    refine ⟨_, rfl, by decide, by decide, fun _ => rfl, ?_, ?_⟩
    · intro conn h
      cases h
    · intro conn e h
      cases h
  | some conn =>
    cases hl : conn.list_collection_names with
    | ok cols =>
      refine ⟨testRespOk env cols, by simp [test_database, testRespOk, hl],
        ?_, ?_, ?_, ?_, ?_⟩
      · show (cols.take 20).length ≤ 20
        exact List.length_take_le 20 cols
      · show ("✅ Connected & Working" : String).length ≤ 144
        decide
      · intro h
        cases h
      · intro conn' h
        rfl
      · intro conn' e h he
        cases h
        rw [hl] at he
        cases he
    | error e =>
      refine ⟨testRespErr env e, by simp [test_database, testRespErr, hl],
        ?_, ?_, ?_, ?_, ?_⟩
      · simp [testRespErr]
      · show ("⚠️ Connected but Error: " ++ strTake e 120).length ≤ 144
        rw [String.length_append]
        have h1 : (strTake e 120).length ≤ 120 := by
          simp [strTake]
        have h2 : ("⚠️ Connected but Error: " : String).length ≤ 24 := by
          decide
        omega
      · intro h
        cases h
      · intro conn' h
        rfl
      · intro conn' e' h he
        cases h
        rw [hl] at he
        cases he
        rfl

/-- C4: for every entity type with an enum-constrained field, a payload
giving that field a value outside its declared set is rejected with a
client error naming the offending field and the store is left unchanged;
an invoice payload with a negative `total` is likewise rejected. -/
theorem invalid_enum_or_negative_total_rejected :
    (∀ (s : Store) (p : ClientIn) (v : String), p.type = some v →
      v ∉ clientTypes →
      ∃ es, create_client s p = (.error es, s) ∧ "type" ∈ es) ∧
    (∀ (s : Store) (p : ClientIn) (v : String), p.status = some v →
      v ∉ clientStatuses →
      ∃ es, create_client s p = (.error es, s) ∧ "status" ∈ es) ∧
    (∀ (s : Store) (p : CaseIn) (v : String), p.status = some v →
      v ∉ caseStatuses →
      ∃ es, create_case s p = (.error es, s) ∧ "status" ∈ es) ∧
    (∀ (s : Store) (p : CaseIn) (v : String), p.priority = some v →
      v ∉ priorities →
      ∃ es, create_case s p = (.error es, s) ∧ "priority" ∈ es) ∧
    (∀ (s : Store) (p : TaskIn) (v : String), p.status = some v →
      v ∉ taskStatuses →
      ∃ es, create_task s p = (.error es, s) ∧ "status" ∈ es) ∧
    (∀ (s : Store) (p : TaskIn) (v : String), p.priority = some v →
      v ∉ priorities →
      ∃ es, create_task s p = (.error es, s) ∧ "priority" ∈ es) ∧
    (∀ (s : Store) (p : InvoiceIn) (v : String), p.currency = some v →
      v ∉ currencies →
      ∃ es, create_invoice s p = (.error es, s) ∧ "currency" ∈ es) ∧
    (∀ (s : Store) (p : InvoiceIn) (v : String), p.status = some v →
      v ∉ invoiceStatuses →
      ∃ es, create_invoice s p = (.error es, s) ∧ "status" ∈ es) ∧
    (∀ (s : Store) (p : SettingIn) (v : String), p.scope = some v →
      v ∉ settingScopes →
      ∃ es, create_setting s p = (.error es, s) ∧ "scope" ∈ es) ∧
    (∀ (s : Store) (p : AssistantMessageIn) (v : String), p.role = some v →
      v ∉ messageRoles →
      ∃ es, add_message s p = (.error es, s) ∧ "role" ∈ es) ∧
    (∀ (s : Store) (p : InvoiceIn) (t : Int), p.total = some t → t < 0 →
      ∃ es, create_invoice s p = (.error es, s) ∧ "total" ∈ es) := by
  refine ⟨?_, ?_, ?_, ?_, ?_, ?_, ?_, ?_, ?_, ?_, ?_⟩
  · intro s p v hv hnot
    have hmem : "type" ∈ clientErrs p := by
      unfold clientErrs
      rw [hv]
      simp [enumErr, hnot]
    exact ⟨clientErrs p,
      create_client_error (validateClient_error (List.ne_nil_of_mem hmem)),
      hmem⟩
  · intro s p v hv hnot
    have hmem : "status" ∈ clientErrs p := by
      unfold clientErrs
      rw [hv]
      simp [enumErr, hnot]
    exact ⟨clientErrs p,
      create_client_error (validateClient_error (List.ne_nil_of_mem hmem)),
      hmem⟩
  · intro s p v hv hnot
    have hmem : "status" ∈ caseErrs p := by
      unfold caseErrs
      rw [hv]
      simp [enumErr, hnot]
    exact ⟨caseErrs p,
      create_case_error (validateCase_error (List.ne_nil_of_mem hmem)),
      hmem⟩
  · intro s p v hv hnot
    have hmem : "priority" ∈ caseErrs p := by
      unfold caseErrs
      rw [hv]
      simp [enumErr, hnot]
    exact ⟨caseErrs p,
      create_case_error (validateCase_error (List.ne_nil_of_mem hmem)),
      hmem⟩
  · intro s p v hv hnot
    have hmem : "status" ∈ taskErrs p := by
      unfold taskErrs
      rw [hv]
      simp [enumErr, hnot]
    exact ⟨taskErrs p,
      create_task_error (validateTask_error (List.ne_nil_of_mem hmem)),
      hmem⟩
  · intro s p v hv hnot
    have hmem : "priority" ∈ taskErrs p := by
      unfold taskErrs
      rw [hv]
      simp [enumErr, hnot]
    exact ⟨taskErrs p,
      create_task_error (validateTask_error (List.ne_nil_of_mem hmem)),
      hmem⟩
  · intro s p v hv hnot
    have hmem : "currency" ∈ invoiceErrs p := by
      unfold invoiceErrs
      rw [hv]
      simp [enumErr, hnot]
    exact ⟨invoiceErrs p,
      create_invoice_error (validateInvoice_error (List.ne_nil_of_mem hmem)),
      hmem⟩
  · intro s p v hv hnot
    have hmem : "status" ∈ invoiceErrs p := by
      unfold invoiceErrs
      rw [hv]
      simp [enumErr, hnot]
    exact ⟨invoiceErrs p,
      create_invoice_error (validateInvoice_error (List.ne_nil_of_mem hmem)),
      hmem⟩
  · intro s p v hv hnot
    have hmem : "scope" ∈ settingErrs p := by
      unfold settingErrs
      rw [hv]
      simp [enumErr, hnot]
    exact ⟨settingErrs p,
      create_setting_error (validateSetting_error (List.ne_nil_of_mem hmem)),
      hmem⟩
  · intro s p v hv hnot
    have hmem : "role" ∈ assistantMessageErrs p := by
      unfold assistantMessageErrs
      rw [hv]
      simp [enumErr, hnot]
    exact ⟨assistantMessageErrs p,
      add_message_error
        (validateAssistantMessage_error (List.ne_nil_of_mem hmem)),
      hmem⟩
  · intro s p t ht hneg
    have hmem : "total" ∈ invoiceErrs p := by
      unfold invoiceErrs
      rw [ht]
      simp [hneg]
    exact ⟨invoiceErrs p,
      create_invoice_error (validateInvoice_error (List.ne_nil_of_mem hmem)),
      hmem⟩

/-- C5: declared defaults are filled into the validated record when the
field is absent from the input: `Case.status` becomes "open",
`Invoice.currency` becomes "USD", `Task.status` becomes "todo",
`Task.priority` becomes "medium", and the list-typed fields
`Task.checklist`, `Case.assignees`, `Case.tags` (and `Invoice.items`)
become the empty sequence. -/
theorem declared_defaults_filled :
    (∀ (p : CaseIn) (c : Case), validateCase p = .ok c →
      (p.status = none → c.status = "open") ∧
      (p.priority = none → c.priority = "medium") ∧
      (p.assignees = none → c.assignees = []) ∧
      (p.tags = none → c.tags = [])) ∧
    (∀ (p : InvoiceIn) (i : Invoice), validateInvoice p = .ok i →
      (p.currency = none → i.currency = "USD") ∧
      (p.status = none → i.status = "draft") ∧
      (p.items = none → i.items = [])) ∧
    (∀ (p : TaskIn) (t : Task), validateTask p = .ok t →
      (p.status = none → t.status = "todo") ∧
      (p.priority = none → t.priority = "medium") ∧
      (p.checklist = none → t.checklist = [])) ∧
    (∀ (p : ClientIn) (c : Client), validateClient p = .ok c →
      (p.type = none → c.type = "individual") ∧
      (p.status = none → c.status = "active")) := by
  refine ⟨?_, ?_, ?_, ?_⟩
  · intro p c h
    unfold validateCase at h
    split at h
    · cases hie : (caseErrs p).isEmpty with
      | true =>
        simp only [hie, if_true] at h
        injection h with h'
        subst h'
        exact ⟨fun hx => by simp [hx], fun hx => by simp [hx],
          fun hx => by simp [hx], fun hx => by simp [hx]⟩
      | false =>
        simp [hie] at h
    · exact Except.noConfusion h
  · intro p i h
    unfold validateInvoice at h
    split at h
    · cases hie : (invoiceErrs p).isEmpty with
      | true =>
        simp only [hie, if_true] at h
        injection h with h'
        subst h'
        exact ⟨fun hx => by simp [hx], fun hx => by simp [hx],
          fun hx => by simp [hx]⟩
      | false =>
        simp [hie] at h
    · exact Except.noConfusion h
  · intro p t h
    unfold validateTask at h
    split at h
    · cases hie : (taskErrs p).isEmpty with
      | true =>
        simp only [hie, if_true] at h
        injection h with h'
        subst h'
        exact ⟨fun hx => by simp [hx], fun hx => by simp [hx],
          fun hx => by simp [hx]⟩
      | false =>
        simp [hie] at h
    · exact Except.noConfusion h
  · intro p c h
    unfold validateClient at h
    split at h
    · cases hie : (clientErrs p).isEmpty with
      | true =>
        simp only [hie, if_true] at h
        injection h with h'
        subst h'
        exact ⟨fun hx => by simp [hx], fun hx => by simp [hx]⟩
      | false =>
        simp [hie] at h
    · exact Except.noConfusion h

/-- A client document, as inserted for `{"name": "Acme Corp"}`. -/
def acmeDoc : Doc := [("name", Value.prim (Prim.pStr "Acme Corp"))]

/-- C1 (amended): when the target collection holds fewer records than the
list call's limit, `create` returns the next fresh identifier and the
subsequent unfiltered list contains exactly one record equal to the
inserted document bearing that identifier; moreover `POST /clients`
inserts exactly the validated payload and returns the generated
identifier. -/
theorem created_record_listed_exactly_once (s : Store) (coll : String)
    (d : Doc) (limit : Nat) (hwf : WF s)
    (hlen : (getColl s coll).length < limit) :
    (create_document s coll d).1 = s.nextId ∧
    ((query (create_document s coll d).2 coll none [] limit).countP
      (fun r => decide (r = ⟨s.nextId, d⟩))) = 1 ∧
    (∀ (p : ClientIn) (c : Client), validateClient p = .ok c →
      create_client s p =
        (.ok s.nextId, (create_document s "client" (clientToDoc c)).2)) := by
  refine ⟨rfl, ?_, ?_⟩
  · rw [query, get_documents, getColl_create_self s coll d]
    have hfil :
        List.filter
          (fun r => matchesFilter
            { eqs := [], orq := if truthy none then none else none } r)
          (getColl s coll ++ [⟨s.nextId, d⟩]) =
          getColl s coll ++ [⟨s.nextId, d⟩] :=
      List.filter_eq_self.mpr (fun r _ => matchesFilter_empty r)
    rw [hfil]
    rw [List.take_of_length_le (by simp; omega)]
    rw [List.countP_append, List.countP_singleton]
    have h0 : (getColl s coll).countP
        (fun r => decide (r = ⟨s.nextId, d⟩)) = 0 := by
      rw [List.countP_eq_zero]
      intro r hr hd
      have hrd : r = ⟨s.nextId, d⟩ := of_decide_eq_true hd
      have hlt := hwf coll r hr
      rw [hrd] at hlt
      exact absurd hlt (lt_irrefl _)
    rw [h0]
    simp
  · intro p c hval
    simp [create_client, create_document, hval]

/-- A store already holding fifty client records (identifiers 0–49). -/
def fullClientStore : Store :=
  ⟨50, [("client", (List.range 50).map (fun k => ⟨k, []⟩))]⟩

/-- C1 counterexample: against a well-formed store already holding 50
client records, a create followed by an unfiltered `GET /clients` with the
default limit 50 returns no record bearing the new identifier at all — the
freshly inserted record is truncated away, so the listing does not include
exactly one such record. -/
theorem created_record_truncated_at_limit :
    WF fullClientStore ∧
    (create_document fullClientStore "client" acmeDoc).1 = 50 ∧
    ((list_clients (create_document fullClientStore "client" acmeDoc).2
        none 50).countP (fun r => decide (r.id = 50))) = 0 := by
  refine ⟨?_, rfl, by decide⟩
  intro c r hr
  by_cases h : c = "client"
  · subst h
    simp [getColl, fullClientStore, List.lookup] at hr
    obtain ⟨k, hk, hrk⟩ := hr
    rw [← hrk]
    simpa [fullClientStore] using hk
  · have hb : (c == "client") = false := beq_eq_false_iff_ne.mpr h
    simp [getColl, fullClientStore, List.lookup, hb] at hr

/-! ## Witnesses -/

/-- A client payload whose `type` is outside the declared set. -/
def badClientIn : ClientIn := { name := some "Acme Corp", type := some "alien" }

/-- The task payload of the concrete default-filling scenario. -/
def fileMotionTask : TaskIn := { title := some "File motion",
                                 case_id := some "c7" }

/-- The validated record of `fileMotionTask`. -/
def fileMotionValidated : Task :=
  { case_id := some "c7", title := "File motion", description := none,
    assignee_id := none, status := "todo", priority := "medium",
    due_date := none, checklist := [] }

/-- C1 witness: creating a client document in the empty store and then
listing without filters yields exactly one matching record. -/
theorem created_record_listed_exactly_once_from_empty :
    (create_document Store.empty "client" acmeDoc).1 = Store.empty.nextId ∧
    ((query (create_document Store.empty "client" acmeDoc).2 "client" none []
        50).countP
      (fun r => decide (r = ⟨Store.empty.nextId, acmeDoc⟩))) = 1 ∧
    (∀ (p : ClientIn) (c : Client), validateClient p = .ok c →
      create_client Store.empty p =
        (.ok Store.empty.nextId,
         (create_document Store.empty "client" (clientToDoc c)).2)) :=
  created_record_listed_exactly_once Store.empty "client" acmeDoc 50
    WF_empty (by decide)

/-- C3 witness: the open merger case returned by the filtered listing
satisfies both equality constraints and the free-text disjunction. -/
theorem open_merger_case_satisfies_all_clauses :
    lookupField openMergerCase "client_id" =
      some (Value.prim (Prim.pStr "c1")) ∧
    lookupField openMergerCase "status" =
      some (Value.prim (Prim.pStr "open")) ∧
    textMatch "merger" openMergerCase = true :=
  filters_compose_conjunctively.1 mergerStore "merger" "c1" "open" 50
    openMergerCase (by decide) (by decide) (by decide) (by decide)

/-- C4 witness: the payload with `type="alien"` is rejected with an error
naming `type`, and the store stays empty. -/
theorem bad_enum_client_rejected :
    ∃ es, create_client Store.empty badClientIn = (.error es, Store.empty) ∧
      "type" ∈ es :=
  invalid_enum_or_negative_total_rejected.1 Store.empty badClientIn "alien"
    rfl (by decide)

/-- C5 witness: the task created from `{"title": "File motion",
"case_id": "c7"}` carries the defaults `status="todo"`,
`priority="medium"`, `checklist=[]`. -/
theorem file_motion_task_has_defaults :
    fileMotionValidated.status = "todo" ∧
    fileMotionValidated.priority = "medium" ∧
    fileMotionValidated.checklist = [] := by
  have h := declared_defaults_filled.2.2.1 fileMotionTask fileMotionValidated
    rfl
  exact ⟨h.1 rfl, h.2.1 rfl, h.2.2 rfl⟩

/-- C8 witness: with a handle whose diagnostic call raises "boom", the test
endpoint still answers with a bounded, descriptive response. -/
theorem test_endpoint_survives_boom :
    ∃ resp,
      test_database (some ⟨Except.error "boom"⟩) ⟨none, none⟩ = .ok resp ∧
      resp.collections.length ≤ 20 ∧
      resp.database.length ≤ 144 ∧
      ((some ⟨Except.error "boom"⟩ : Option DbConn) = none →
        resp.connection_status = "Not Connected") ∧
      (∀ conn, (some ⟨Except.error "boom"⟩ : Option DbConn) = some conn →
        resp.connection_status = "Connected") ∧
      (∀ conn e, (some ⟨Except.error "boom"⟩ : Option DbConn) = some conn →
        conn.list_collection_names = .error e →
        resp.database = "⚠️ Connected but Error: " ++ strTake e 120) :=
  test_endpoint_never_faults (some ⟨Except.error "boom"⟩) ⟨none, none⟩

/-- C9 witness: serving `GET /schema` leaves the store untouched. -/
theorem schema_step_preserves_store :
    (step mergerStore Op.opSchema).1 = mergerStore :=
  insert_is_only_mutation.1 mergerStore Op.opSchema rfl

end LegalBackend
